import Mathlib

/-!
Shallow embedding of the recipe-service domain/document mapping layer
(model/recipe.rs, model/ingredients.rs, model/difficulty.rs,
model/measurement_unit.rs, pagination.rs) and proofs about it.

BSON documents are modelled as ordered association lists; `insert`
replaces a value in place when the key exists and appends otherwise,
matching the linked-hash-map backing of the bson crate. 32-bit machine
integers are modelled as `Int` (i32, with explicit wrap-around where a
cast occurs) and `Nat` (u32).
-/

namespace Zellinotes

/-- Opaque BSON ObjectId; the mapper never inspects its internals. -/
structure ObjectId where
  oid : Nat
deriving DecidableEq, Repr

/-- Opaque chrono timestamp value as stored in a Bson UtcDatetime. -/
structure UtcDateTime where
  millis : Int
deriving DecidableEq, Repr

/-- The BSON value tree (the variants the mapping layer interacts with,
plus boolean and int64 standing in for all other shapes). A document is
an ordered list of key/value pairs. -/
inductive Bson where
  | null : Bson
  | boolean (b : Bool) : Bson
  | int32 (n : Int) : Bson
  | int64 (n : Int) : Bson
  | string (s : String) : Bson
  | objectId (o : ObjectId) : Bson
  | utcDatetime (t : UtcDateTime) : Bson
  | array (elems : List Bson) : Bson
  | document (pairs : List (String × Bson)) : Bson

/-- An ordered BSON document. -/
def Document : Type := List (String × Bson)

/-- Key lookup, first match. -/
def Document.get : Document → String → Option Bson
  | [], _ => none
  | (k, v) :: rest, key => if k = key then some v else Document.get rest key

/-- Insert: replace in place when the key exists, append otherwise
(linked-hash-map semantics of bson Document insert). -/
def Document.insert : Document → String → Bson → Document
  | [], key, v => [(key, v)]
  | (k, w) :: rest, key, v =>
      if k = key then (key, v) :: rest else (k, w) :: Document.insert rest key v

def Document.getStr (d : Document) (key : String) : Option String :=
  match Document.get d key with
  | some (Bson.string s) => some s
  | _ => none

def Document.getI32 (d : Document) (key : String) : Option Int :=
  match Document.get d key with
  | some (Bson.int32 n) => some n
  | _ => none

def Document.getArray (d : Document) (key : String) : Option (List Bson) :=
  match Document.get d key with
  | some (Bson.array xs) => some xs
  | _ => none

def Document.getDatetime (d : Document) (key : String) : Option UtcDateTime :=
  match Document.get d key with
  | some (Bson.utcDatetime t) => some t
  | _ => none

def Document.getObjectId (d : Document) (key : String) : Option ObjectId :=
  match Document.get d key with
  | some (Bson.objectId o) => some o
  | _ => none

/-- Bson::as_str. -/
def Bson.asStr : Bson → Option String
  | Bson.string s => some s
  | _ => none

/-- Bson::as_document. -/
def Bson.asDocument : Bson → Option Document
  | Bson.document pairs => some pairs
  | _ => none

/-- Rust `x as u32` on an i32 value: reinterpret the bit pattern. -/
def i32AsU32 (x : Int) : Nat :=
  if x < 0 then (x + 2 ^ 32).toNat else x.toNat

/-- The bson crate inserts a u32 as Int32 with the same bit pattern
(`From for Bson` does `a as i32`). -/
def u32AsI32 (u : Nat) : Int :=
  if u < 2 ^ 31 then (u : Int) else (u : Int) - 2 ^ 32

/-- model/recipe.rs RecipeFormatError. -/
structure RecipeFormatError where
  error : String
deriving DecidableEq, Repr

/-- model/difficulty.rs Difficulty. -/
inductive Difficulty where
  | Easy : Difficulty
  | Medium : Difficulty
  | Hard : Difficulty
deriving DecidableEq, Repr

/-- Display for Difficulty (Debug derive prints the variant name). -/
def Difficulty.toStr : Difficulty → String
  | Difficulty.Easy => "Easy"
  | Difficulty.Medium => "Medium"
  | Difficulty.Hard => "Hard"

/-- TryFrom str for Difficulty. -/
def Difficulty.tryFrom (value : String) : Except RecipeFormatError Difficulty :=
  if value = "Easy" then Except.ok Difficulty.Easy
  else if value = "Medium" then Except.ok Difficulty.Medium
  else if value = "Hard" then Except.ok Difficulty.Hard
  else Except.error ⟨"Difficulty " ++ value ++ " does not match one predefined value"⟩

/-- model/measurement_unit.rs MeasurementUnit. -/
inductive MeasurementUnit where
  | Kilogramm : MeasurementUnit
  | Gramm : MeasurementUnit
  | Milliliter : MeasurementUnit
  | Liter : MeasurementUnit
  | Piece : MeasurementUnit
  | Pack : MeasurementUnit
deriving DecidableEq, Repr

/-- Display for MeasurementUnit (Debug derive prints the variant name). -/
def MeasurementUnit.toStr : MeasurementUnit → String
  | MeasurementUnit.Kilogramm => "Kilogramm"
  | MeasurementUnit.Gramm => "Gramm"
  | MeasurementUnit.Milliliter => "Milliliter"
  | MeasurementUnit.Liter => "Liter"
  | MeasurementUnit.Piece => "Piece"
  | MeasurementUnit.Pack => "Pack"

/-- TryFrom str for MeasurementUnit. -/
def MeasurementUnit.tryFrom (value : String) : Except RecipeFormatError MeasurementUnit :=
  if value = "Kilogramm" then Except.ok MeasurementUnit.Kilogramm
  else if value = "Gramm" then Except.ok MeasurementUnit.Gramm
  else if value = "Milliliter" then Except.ok MeasurementUnit.Milliliter
  else if value = "Liter" then Except.ok MeasurementUnit.Liter
  else if value = "Piece" then Except.ok MeasurementUnit.Piece
  else if value = "Pack" then Except.ok MeasurementUnit.Pack
  else Except.error ⟨"Could not create MeasurementUnit from string: " ++ value⟩

/-- model/ingredients.rs Ingredient. -/
structure Ingredient where
  id : String
  amount : Int
  title : String
  measurement_unit : MeasurementUnit
deriving DecidableEq, Repr

/-- TryFrom Bson for Ingredient (field order: id, amount, title,
measurementUnit; each access mapped to its own error message). -/
def Ingredient.tryFrom (bson : Bson) : Except RecipeFormatError Ingredient :=
  match Bson.asDocument bson with
  | none => Except.error ⟨"Error getting ingredients from document"⟩
  | some doc =>
    match Document.getStr doc "id" with
    | none => Except.error ⟨"Error getting id from ingredient from document"⟩
    | some i =>
      match Document.getI32 doc "amount" with
      | none => Except.error ⟨"Error getting amount from ingredient from document"⟩
      | some a =>
        match Document.getStr doc "title" with
        | none => Except.error ⟨"Error getting title from ingredient from document"⟩
        | some t =>
          match Document.getStr doc "measurementUnit" with
          | none => Except.error ⟨"Error getting measurement unit from ingredient from document"⟩
          | some m =>
            match MeasurementUnit.tryFrom m with
            | Except.error _ =>
                Except.error ⟨"Error converting measurement unit from ingredient to enum"⟩
            | Except.ok u => Except.ok ⟨i, a, t, u⟩

/-- From Ingredient for Bson: a nested document with the four keys in
insertion order. -/
def Ingredient.toBson (ing : Ingredient) : Bson :=
  Bson.document
    [ ("id", Bson.string ing.id),
      ("amount", Bson.int32 ing.amount),
      ("title", Bson.string ing.title),
      ("measurementUnit", Bson.string (MeasurementUnit.toStr ing.measurement_unit)) ]

/-- model/recipe.rs key constants (exact wire strings from the source). -/
def JSON_ATTR_ID : String := "_id"

def JSON_ATTR_COOKING_TIME : String := "cookingTimeInMinutes"

def JSON_ATTR_CREATED : String := "created"

def JSON_ATTR_LAST_MODIFIED : String := "last_modified"

def JSON_ATTR_INGREDIENTS : String := "ingredients"

def JSON_ATTR_VERSION : String := "version"

def JSON_ATTR_DIFFICULTY : String := "difficulty"

def JSON_ATTR_DESCRIPTION : String := "description"

def JSON_ATTR_TITLE : String := "title"

def JSON_ATTR_TAGS : String := "tags"

def JSON_ATTR_IMAGE : String := "image"

def JSON_ATTR_INSTRUCTIONS : String := "instructions"

def JSON_ATTR_DEFAULT_SERVINGS : String := "defaultServings"

/-- model/recipe.rs Recipe. u32 fields are Nat (representation
invariant: below 2^32), i32 amounts inside ingredients are Int. -/
structure Recipe where
  _id : ObjectId
  cooking_time_in_minutes : Nat
  created : UtcDateTime
  last_modified : UtcDateTime
  ingredients : List Ingredient
  version : Nat
  difficulty : Difficulty
  description : String
  title : String
  tags : List String
  image_oid : Option ObjectId
  instructions : List String
  default_servings : Nat
deriving DecidableEq, Repr

/-- Iterator map + collect over Option: fails when any element fails,
keeps order (used for tags and instructions). -/
def collectStrings : List Bson → Option (List String)
  | [] => some []
  | b :: rest =>
    match Bson.asStr b, collectStrings rest with
    | some s, some l => some (s :: l)
    | _, _ => none

/-- Iterator map + collect over Result for the ingredients array. The
per-element error is mapped to an empty message in the source. -/
def collectIngredients : List Bson → Except RecipeFormatError (List Ingredient)
  | [] => Except.ok []
  | b :: rest =>
    match Ingredient.tryFrom b with
    | Except.error _ => Except.error ⟨""⟩
    | Except.ok ing =>
      match collectIngredients rest with
      | Except.error e => Except.error e
      | Except.ok l => Except.ok (ing :: l)

def Recipe.extract_difficulty (doc : Document) : Except RecipeFormatError Difficulty :=
  match Document.getStr doc JSON_ATTR_DIFFICULTY with
  | some s => Difficulty.tryFrom s
  | none => Except.error ⟨"Error getting difficulty from document"⟩

def Recipe.extract_description (doc : Document) : Except RecipeFormatError String :=
  match Document.getStr doc JSON_ATTR_DESCRIPTION with
  | some s => Except.ok s
  | none => Except.error ⟨"Error getting description from document"⟩

def Recipe.extract_tags (doc : Document) : Except RecipeFormatError (List String) :=
  match Document.getArray doc JSON_ATTR_TAGS with
  | none => Except.error ⟨"Error getting tag from document"⟩
  | some tags =>
    match collectStrings tags with
    | some l => Except.ok l
    | none => Except.error ⟨"Error getting tag from document"⟩

def Recipe.extract_image (doc : Document) : Except RecipeFormatError (Option ObjectId) :=
  match Document.get doc JSON_ATTR_IMAGE with
  | some Bson.null => Except.ok none
  | some (Bson.objectId oid) => Except.ok (some oid)
  | _ => Except.error ⟨"Error getting image from document"⟩

def Recipe.extract_instructions (doc : Document) : Except RecipeFormatError (List String) :=
  match Document.getArray doc JSON_ATTR_INSTRUCTIONS with
  | none => Except.error ⟨"Error getting instructions from document"⟩
  | some xs =>
    match collectStrings xs with
    | some l => Except.ok l
    | none => Except.error ⟨"Error getting instructions from document"⟩

def Recipe.extract_default_servings (doc : Document) : Except RecipeFormatError Nat :=
  match Document.getI32 doc JSON_ATTR_DEFAULT_SERVINGS with
  | some x => Except.ok (if x < 1 then 1 else i32AsU32 x)
  | none => Except.error ⟨"Error getting default_servings from document"⟩

def Recipe.extract_title (doc : Document) : Except RecipeFormatError String :=
  match Document.getStr doc JSON_ATTR_TITLE with
  | some s => Except.ok s
  | none => Except.error ⟨"Error getting title from document"⟩

def Recipe.extract_version (doc : Document) : Except RecipeFormatError Nat :=
  match Document.getI32 doc JSON_ATTR_VERSION with
  | some x => Except.ok (i32AsU32 x)
  | none => Except.error ⟨"Error getting version from document"⟩

def Recipe.extract_created (doc : Document) : Except RecipeFormatError UtcDateTime :=
  match Document.getDatetime doc JSON_ATTR_CREATED with
  | some t => Except.ok t
  | none => Except.error ⟨"Error getting created from document"⟩

def Recipe.extract_ingredients (doc : Document) : Except RecipeFormatError (List Ingredient) :=
  match Document.getArray doc JSON_ATTR_INGREDIENTS with
  | none => Except.error ⟨"Error getting ingredients from document"⟩
  | some xs => collectIngredients xs

def Recipe.extract_last_modified (doc : Document) : Except RecipeFormatError UtcDateTime :=
  match Document.getDatetime doc JSON_ATTR_LAST_MODIFIED with
  | some t => Except.ok t
  | none => Except.error ⟨"Error getting last modified from document"⟩

def Recipe.extract_cooking_time (doc : Document) : Except RecipeFormatError Nat :=
  match Document.getI32 doc JSON_ATTR_COOKING_TIME with
  | some x => Except.ok (if x < 0 then 0 else i32AsU32 x)
  | none => Except.error ⟨"Error getting cooking timefrom document"⟩

def Recipe.extract_id (doc : Document) : Except RecipeFormatError ObjectId :=
  match Document.getObjectId doc JSON_ATTR_ID with
  | some o => Except.ok o
  | none => Except.error ⟨"Error getting  Object Id document"⟩

/-- TryFrom Document for Recipe: fields extracted in struct-literal
order, failing fast at the first error (each match is one use of the
question-mark operator in the source). -/
def Recipe.tryFrom (doc : Document) : Except RecipeFormatError Recipe :=
  match Recipe.extract_id doc with
  | Except.error e => Except.error e
  | Except.ok i =>
  match Recipe.extract_cooking_time doc with
  | Except.error e => Except.error e
  | Except.ok ct =>
  match Recipe.extract_created doc with
  | Except.error e => Except.error e
  | Except.ok cr =>
  match Recipe.extract_last_modified doc with
  | Except.error e => Except.error e
  | Except.ok lm =>
  match Recipe.extract_ingredients doc with
  | Except.error e => Except.error e
  | Except.ok ings =>
  match Recipe.extract_version doc with
  | Except.error e => Except.error e
  | Except.ok ver =>
  match Recipe.extract_difficulty doc with
  | Except.error e => Except.error e
  | Except.ok diff =>
  match Recipe.extract_description doc with
  | Except.error e => Except.error e
  | Except.ok desc =>
  match Recipe.extract_title doc with
  | Except.error e => Except.error e
  | Except.ok ti =>
  match Recipe.extract_tags doc with
  | Except.error e => Except.error e
  | Except.ok tg =>
  match Recipe.extract_image doc with
  | Except.error e => Except.error e
  | Except.ok img =>
  match Recipe.extract_instructions doc with
  | Except.error e => Except.error e
  | Except.ok ins =>
  match Recipe.extract_default_servings doc with
  | Except.error e => Except.error e
  | Except.ok ds =>
    Except.ok ⟨i, ct, cr, lm, ings, ver, diff, desc, ti, tg, img, ins, ds⟩

/-- From Recipe for Document: sequential inserts into an empty document,
which is this list in insertion order. Note: no identifier key is
written. u32 fields go through the lossy u32-to-i32 Bson conversion of
the bson crate; absent image is written as explicit null. -/
def Recipe.toDocument (recipe : Recipe) : Document :=
  [ (JSON_ATTR_COOKING_TIME, Bson.int32 (u32AsI32 recipe.cooking_time_in_minutes)),
    (JSON_ATTR_CREATED, Bson.utcDatetime recipe.created),
    (JSON_ATTR_LAST_MODIFIED, Bson.utcDatetime recipe.last_modified),
    (JSON_ATTR_INGREDIENTS, Bson.array (recipe.ingredients.map Ingredient.toBson)),
    (JSON_ATTR_VERSION, Bson.int32 (u32AsI32 recipe.version)),
    (JSON_ATTR_DIFFICULTY, Bson.string (Difficulty.toStr recipe.difficulty)),
    (JSON_ATTR_DESCRIPTION, Bson.string recipe.description),
    (JSON_ATTR_TITLE, Bson.string recipe.title),
    (JSON_ATTR_TAGS, Bson.array (recipe.tags.map Bson.string)),
    (JSON_ATTR_IMAGE, match recipe.image_oid with
      | none => Bson.null
      | some oid => Bson.objectId oid),
    (JSON_ATTR_INSTRUCTIONS, Bson.array (recipe.instructions.map Bson.string)),
    (JSON_ATTR_DEFAULT_SERVINGS, Bson.int32 (u32AsI32 recipe.default_servings)) ]

/-- pagination.rs Pagination. -/
structure Pagination where
  page : Option Nat
  items : Option Nat
  sorting : Option Int
deriving DecidableEq, Repr

def Pagination.is_fully_set (p : Pagination) : Bool :=
  p.page.isSome && decide (0 < p.page.getD 0)
    && p.items.isSome && decide (0 < p.items.getD 0)
    && p.sorting.isSome && (decide (p.sorting.getD 0 = 1) || decide (p.sorting.getD 0 = -1))

def Pagination.is_fully_empty (p : Pagination) : Bool :=
  p.page.isNone && p.items.isNone && p.sorting.isNone

/-- The top-level document keys the recipe mapper reads, in extraction
order. -/
def recognizedKeys : List String :=
  [ JSON_ATTR_ID, JSON_ATTR_COOKING_TIME, JSON_ATTR_CREATED, JSON_ATTR_LAST_MODIFIED,
    JSON_ATTR_INGREDIENTS, JSON_ATTR_VERSION, JSON_ATTR_DIFFICULTY, JSON_ATTR_DESCRIPTION,
    JSON_ATTR_TITLE, JSON_ATTR_TAGS, JSON_ATTR_IMAGE, JSON_ATTR_INSTRUCTIONS,
    JSON_ATTR_DEFAULT_SERVINGS ]

/-- The error of a field extraction, as a zero-or-one-element list. -/
def errList {α : Type} : Except RecipeFormatError α → List RecipeFormatError
  | Except.error e => [e]
  | Except.ok _ => []

/-- All per-field extraction errors of a document, in extraction order. -/
def Recipe.fieldErrors (doc : Document) : List RecipeFormatError :=
  errList (Recipe.extract_id doc) ++ errList (Recipe.extract_cooking_time doc)
    ++ errList (Recipe.extract_created doc) ++ errList (Recipe.extract_last_modified doc)
    ++ errList (Recipe.extract_ingredients doc) ++ errList (Recipe.extract_version doc)
    ++ errList (Recipe.extract_difficulty doc) ++ errList (Recipe.extract_description doc)
    ++ errList (Recipe.extract_title doc) ++ errList (Recipe.extract_tags doc)
    ++ errList (Recipe.extract_image doc) ++ errList (Recipe.extract_instructions doc)
    ++ errList (Recipe.extract_default_servings doc)

/-! ## Basic lemmas about documents and serialization -/

theorem Document.get_insert_self (d : Document) (k : String) (v : Bson) :
    Document.get (Document.insert d k v) k = some v := by
  induction d with
  | nil => simp [Document.insert, Document.get]
  | cons p rest ih =>
    obtain ⟨k1, v1⟩ := p
    by_cases h : k1 = k
    · subst h
      simp [Document.insert, Document.get]
    · simp [Document.insert, Document.get, h, ih]

theorem Document.get_insert_ne (d : Document) (k key : String) (v : Bson)
    (h : key ≠ k) : Document.get (Document.insert d k v) key = Document.get d key := by
  induction d with
  | nil => simp [Document.insert, Document.get, Ne.symm h]
  | cons p rest ih =>
    obtain ⟨k1, v1⟩ := p
    by_cases h1 : k1 = k
    · subst h1
      simp [Document.insert, Document.get, Ne.symm h]
    · simp [Document.insert, Document.get, h1, ih]

theorem Ingredient.tryFrom_toBson (ing : Ingredient) :
    Ingredient.tryFrom (Ingredient.toBson ing) = Except.ok ing := by
  obtain ⟨i, a, t, m⟩ := ing
  cases m <;> rfl

theorem collectStrings_map_string (l : List String) :
    collectStrings (l.map Bson.string) = some l := by
  induction l with
  | nil => rfl
  | cons s rest ih => simp [collectStrings, Bson.asStr, ih]

theorem collectIngredients_map_toBson (l : List Ingredient) :
    collectIngredients (l.map Ingredient.toBson) = Except.ok l := by
  induction l with
  | nil => rfl
  | cons ing rest ih => simp [collectIngredients, Ingredient.tryFrom_toBson, ih]

theorem i32AsU32_u32AsI32 (u : Nat) (h : u < 2 ^ 32) :
    i32AsU32 (u32AsI32 u) = u := by
  unfold i32AsU32 u32AsI32
  split <;> split <;> omega

theorem difficulty_tryFrom_toStr (d : Difficulty) :
    Difficulty.tryFrom (Difficulty.toStr d) = Except.ok d := by
  cases d <;> rfl

theorem measurementUnit_tryFrom_toStr (m : MeasurementUnit) :
    MeasurementUnit.tryFrom (MeasurementUnit.toStr m) = Except.ok m := by
  cases m <;> rfl

theorem u32AsI32_not_neg (u : Nat) (h : u < 2 ^ 31) : ¬ u32AsI32 u < 0 := by
  unfold u32AsI32
  split <;> omega

theorem u32AsI32_not_lt_one (u : Nat) (h1 : 1 ≤ u) (h2 : u < 2 ^ 31) :
    ¬ u32AsI32 u < 1 := by
  unfold u32AsI32
  split <;> omega

/-- Round trip through the document representation, after re-inserting
the identifier key that the serializer leaves out. The numeric bounds
keep the lossy u32-to-i32 write and the clamping reads from changing
the values. -/
theorem tryFrom_insert_id_toDocument (r : Recipe)
    (hct : r.cooking_time_in_minutes < 2 ^ 31)
    (hds1 : 1 ≤ r.default_servings) (hds2 : r.default_servings < 2 ^ 31)
    (hv : r.version < 2 ^ 32) :
    Recipe.tryFrom (Document.insert (Recipe.toDocument r) JSON_ATTR_ID (Bson.objectId r._id))
      = Except.ok r := by
  set D := Document.insert (Recipe.toDocument r) JSON_ATTR_ID (Bson.objectId r._id) with hD
  have e1 : Recipe.extract_id D = Except.ok r._id := by rw [hD]; rfl
  have e2 : Recipe.extract_cooking_time D = Except.ok r.cooking_time_in_minutes := by
    have g : Recipe.extract_cooking_time D
        = Except.ok (if u32AsI32 r.cooking_time_in_minutes < 0 then 0
            else i32AsU32 (u32AsI32 r.cooking_time_in_minutes)) := by rw [hD]; rfl
    rw [g, if_neg (u32AsI32_not_neg _ hct), i32AsU32_u32AsI32 _ (by omega)]
  have e3 : Recipe.extract_created D = Except.ok r.created := by rw [hD]; rfl
  have e4 : Recipe.extract_last_modified D = Except.ok r.last_modified := by rw [hD]; rfl
  have e5 : Recipe.extract_ingredients D = Except.ok r.ingredients := by
    have g : Recipe.extract_ingredients D
        = collectIngredients (r.ingredients.map Ingredient.toBson) := by rw [hD]; rfl
    rw [g, collectIngredients_map_toBson]
  have e6 : Recipe.extract_version D = Except.ok r.version := by
    have g : Recipe.extract_version D = Except.ok (i32AsU32 (u32AsI32 r.version)) := by rw [hD]; rfl
    rw [g, i32AsU32_u32AsI32 _ hv]
  have e7 : Recipe.extract_difficulty D = Except.ok r.difficulty := by
    have g : Recipe.extract_difficulty D = Difficulty.tryFrom (Difficulty.toStr r.difficulty) := by
      rw [hD]; rfl
    rw [g, difficulty_tryFrom_toStr]
  have e8 : Recipe.extract_description D = Except.ok r.description := by rw [hD]; rfl
  have e9 : Recipe.extract_title D = Except.ok r.title := by rw [hD]; rfl
  have e10 : Recipe.extract_tags D = Except.ok r.tags := by
    have g : Recipe.extract_tags D
        = match collectStrings (r.tags.map Bson.string) with
          | some l => Except.ok l
          | none => Except.error ⟨"Error getting tag from document"⟩ := by rw [hD]; rfl
    rw [g, collectStrings_map_string]
  have e11 : Recipe.extract_image D = Except.ok r.image_oid := by
    have g : Document.get D JSON_ATTR_IMAGE
        = some (match r.image_oid with
            | none => Bson.null
            | some oid => Bson.objectId oid) := by rw [hD]; rfl
    unfold Recipe.extract_image
    rw [g]
    rcases hI : r.image_oid with _ | oid <;> rfl
  have e12 : Recipe.extract_instructions D = Except.ok r.instructions := by
    have g : Recipe.extract_instructions D
        = match collectStrings (r.instructions.map Bson.string) with
          | some l => Except.ok l
          | none => Except.error ⟨"Error getting instructions from document"⟩ := by rw [hD]; rfl
    rw [g, collectStrings_map_string]
  have e13 : Recipe.extract_default_servings D = Except.ok r.default_servings := by
    have g : Recipe.extract_default_servings D
        = Except.ok (if u32AsI32 r.default_servings < 1 then 1
            else i32AsU32 (u32AsI32 r.default_servings)) := by rw [hD]; rfl
    rw [g, if_neg (u32AsI32_not_lt_one _ hds1 hds2), i32AsU32_u32AsI32 _ (by omega)]
  simp only [Recipe.tryFrom, e1, e2, e3, e4, e5, e6, e7, e8, e9, e10, e11, e12, e13]

/-! ## Concrete sample values (mirroring the create_basic_recipe_doc
test fixture) used by counterexamples and witnesses -/

def sampleId : ObjectId := ⟨1⟩

def sampleRecipe : Recipe :=
  { _id := sampleId
    cooking_time_in_minutes := 10
    created := ⟨100⟩
    last_modified := ⟨200⟩
    ingredients :=
      [ ⟨"0", 100, "Cheese", MeasurementUnit.Kilogramm⟩,
        ⟨"1", 200, "Bread", MeasurementUnit.Piece⟩ ]
    version := 1
    difficulty := Difficulty.Easy
    description := "Recipe desciption"
    title := "Recipe title"
    tags := ["vegan", "fast"]
    image_oid := none
    instructions := ["do it", "do that", "do this"]
    default_servings := 2 }

/-! ## Claims -/

/-- C1. The round trip as claimed fails on every recipe because the
serializer never writes the identifier key: at the concrete valid
sample recipe (cooking time 10 ≥ 0, default servings 2 ≥ 1, image
absent-as-null), parsing its serialized document errors on the
identifier field instead of yielding the recipe back. -/
theorem c1_roundtrip_counterexample :
    Recipe.tryFrom (Recipe.toDocument sampleRecipe)
        = Except.error ⟨"Error getting  Object Id document"⟩
      ∧ 1 ≤ sampleRecipe.default_servings
      ∧ sampleRecipe.image_oid = none :=
  ⟨rfl, by decide, rfl⟩

/-- C1 (amended). toDocument omits the identifier key; after
re-inserting it, parsing yields the recipe back field-for-field (order
of ingredients, tags and instructions preserved by construction of the
list round trip), for every recipe whose cooking time is below 2^31,
whose default servings is in [1, 2^31), and whose version is a u32
value. -/
theorem c1_roundtrip_with_id (r : Recipe)
    (hct : r.cooking_time_in_minutes < 2 ^ 31)
    (hds1 : 1 ≤ r.default_servings) (hds2 : r.default_servings < 2 ^ 31)
    (hv : r.version < 2 ^ 32) :
    Recipe.tryFrom (Document.insert (Recipe.toDocument r) JSON_ATTR_ID (Bson.objectId r._id))
      = Except.ok r :=
  tryFrom_insert_id_toDocument r hct hds1 hds2 hv

/-- C1 witness: the amended round trip at the concrete sample recipe. -/
theorem c1_roundtrip_with_id_witness :
    Recipe.tryFrom (Document.insert (Recipe.toDocument sampleRecipe) JSON_ATTR_ID
        (Bson.objectId sampleRecipe._id))
      = Except.ok sampleRecipe :=
  c1_roundtrip_with_id sampleRecipe (by decide) (by decide) (by decide) (by decide)

/-- C2. Image tri-state: explicit null parses to no image; an ObjectId
value parses to that image; a missing key errors; any other shape
errors; and serializing a recipe without an image writes the image key
bound to explicit null (the key is present). -/
theorem c2_image_tristate :
    (∀ d : Document, Document.get d JSON_ATTR_IMAGE = some Bson.null →
        Recipe.extract_image d = Except.ok none)
  ∧ (∀ (d : Document) (oid : ObjectId),
        Document.get d JSON_ATTR_IMAGE = some (Bson.objectId oid) →
        Recipe.extract_image d = Except.ok (some oid))
  ∧ (∀ d : Document, Document.get d JSON_ATTR_IMAGE = none →
        Recipe.extract_image d = Except.error ⟨"Error getting image from document"⟩)
  ∧ (∀ (d : Document) (b : Bson), Document.get d JSON_ATTR_IMAGE = some b →
        b ≠ Bson.null → (∀ oid, b ≠ Bson.objectId oid) →
        Recipe.extract_image d = Except.error ⟨"Error getting image from document"⟩)
  ∧ (∀ r : Recipe, r.image_oid = none →
        Document.get (Recipe.toDocument r) JSON_ATTR_IMAGE = some Bson.null) := by
  refine ⟨?_, ?_, ?_, ?_, ?_⟩
  · intro d h
    unfold Recipe.extract_image
    rw [h]
  · intro d oid h
    unfold Recipe.extract_image
    rw [h]
  · intro d h
    unfold Recipe.extract_image
    rw [h]
  · intro d b h hnull hoid
    unfold Recipe.extract_image
    rw [h]
    cases b with
    | null => exact absurd rfl hnull
    | objectId o => exact absurd rfl (hoid o)
    | boolean x => rfl
    | int32 x => rfl
    | int64 x => rfl
    | string x => rfl
    | utcDatetime x => rfl
    | array x => rfl
    | document x => rfl
  · intro r h
    have g : Document.get (Recipe.toDocument r) JSON_ATTR_IMAGE
        = some (match r.image_oid with
            | none => Bson.null
            | some oid => Bson.objectId oid) := rfl
    rw [g, h]

/-- C2 witness: each branch of the tri-state at a concrete document. -/
theorem c2_image_tristate_witness :
    Recipe.extract_image [(JSON_ATTR_IMAGE, Bson.null)] = Except.ok none
  ∧ Recipe.extract_image [(JSON_ATTR_IMAGE, Bson.objectId sampleId)] = Except.ok (some sampleId)
  ∧ Recipe.extract_image [] = Except.error ⟨"Error getting image from document"⟩
  ∧ Recipe.extract_image [(JSON_ATTR_IMAGE, Bson.string "img")]
      = Except.error ⟨"Error getting image from document"⟩
  ∧ Document.get (Recipe.toDocument sampleRecipe) JSON_ATTR_IMAGE = some Bson.null :=
  ⟨c2_image_tristate.1 _ rfl,
   c2_image_tristate.2.1 _ sampleId rfl,
   c2_image_tristate.2.2.1 _ rfl,
   c2_image_tristate.2.2.2.1 _ (Bson.string "img") rfl (by intro h; cases h)
     (by intro oid h; cases h),
   c2_image_tristate.2.2.2.2 sampleRecipe rfl⟩

/-- C3. For an Int32 cooking-time value n the extractor succeeds with
max(n, 0); for an Int32 default-servings value n it succeeds with
max(n, 1); and re-serializing the clamped result (through the u32-to-
Int32 document write) and re-extracting yields the same clamped value,
so the clamping is idempotent. -/
theorem c3_clamping (d : Document) (n : Int)
    (h1 : -(2 ^ 31) ≤ n) (h2 : n < 2 ^ 31) :
    (Document.get d JSON_ATTR_COOKING_TIME = some (Bson.int32 n) →
        Recipe.extract_cooking_time d = Except.ok (max n 0).toNat)
  ∧ (Document.get d JSON_ATTR_DEFAULT_SERVINGS = some (Bson.int32 n) →
        Recipe.extract_default_servings d = Except.ok (max n 1).toNat)
  ∧ Recipe.extract_cooking_time
      (Document.insert d JSON_ATTR_COOKING_TIME (Bson.int32 (u32AsI32 (max n 0).toNat)))
      = Except.ok (max n 0).toNat
  ∧ Recipe.extract_default_servings
      (Document.insert d JSON_ATTR_DEFAULT_SERVINGS (Bson.int32 (u32AsI32 (max n 1).toNat)))
      = Except.ok (max n 1).toNat := by
  refine ⟨?_, ?_, ?_, ?_⟩
  · intro h
    unfold Recipe.extract_cooking_time Document.getI32
    rw [h]
    simp only [i32AsU32]
    congr 1
    repeat' split
    all_goals omega
  · intro h
    unfold Recipe.extract_default_servings Document.getI32
    rw [h]
    simp only [i32AsU32]
    congr 1
    repeat' split
    all_goals omega
  · unfold Recipe.extract_cooking_time Document.getI32
    rw [Document.get_insert_self]
    simp only [u32AsI32, i32AsU32]
    congr 1
    repeat' split
    all_goals omega
  · unfold Recipe.extract_default_servings Document.getI32
    rw [Document.get_insert_self]
    simp only [u32AsI32, i32AsU32]
    congr 1
    repeat' split
    all_goals omega

/-- C3 witness: cooking time -5 clamps to 0, default servings 0 clamps
to 1, and re-serializing then re-extracting keeps the clamped values. -/
theorem c3_clamping_witness :
    Recipe.extract_cooking_time [(JSON_ATTR_COOKING_TIME, Bson.int32 (-5))] = Except.ok 0
  ∧ Recipe.extract_default_servings [(JSON_ATTR_DEFAULT_SERVINGS, Bson.int32 0)] = Except.ok 1
  ∧ Recipe.extract_cooking_time
      (Document.insert [(JSON_ATTR_COOKING_TIME, Bson.int32 (-5))] JSON_ATTR_COOKING_TIME
        (Bson.int32 (u32AsI32 (max (-5 : Int) 0).toNat))) = Except.ok 0 :=
  ⟨(c3_clamping [(JSON_ATTR_COOKING_TIME, Bson.int32 (-5))] (-5) (by decide) (by decide)).1 rfl,
   (c3_clamping [(JSON_ATTR_DEFAULT_SERVINGS, Bson.int32 0)] 0 (by decide) (by decide)).2.1 rfl,
   (c3_clamping [(JSON_ATTR_COOKING_TIME, Bson.int32 (-5))] (-5) (by decide) (by decide)).2.2.1⟩

/-- C7. Enum strictness: parsing the canonical string of every
Difficulty and MeasurementUnit variant yields the variant back; a
string accepted by either parser is character-for-character one of the
canonical literals; lowercase "easy" is rejected while "Easy" parses to
Easy, whose canonical string is "Easy". -/
theorem c7_enum_strictness :
    (∀ v : Difficulty, Difficulty.tryFrom (Difficulty.toStr v) = Except.ok v)
  ∧ (∀ (s : String) (v : Difficulty),
        Difficulty.tryFrom s = Except.ok v → s = Difficulty.toStr v)
  ∧ (∀ u : MeasurementUnit, MeasurementUnit.tryFrom (MeasurementUnit.toStr u) = Except.ok u)
  ∧ (∀ (s : String) (u : MeasurementUnit),
        MeasurementUnit.tryFrom s = Except.ok u → s = MeasurementUnit.toStr u)
  ∧ (∃ e, Difficulty.tryFrom "easy" = Except.error e)
  ∧ Difficulty.tryFrom "Easy" = Except.ok Difficulty.Easy
  ∧ Difficulty.toStr Difficulty.Easy = "Easy" := by
  refine ⟨difficulty_tryFrom_toStr, ?_, measurementUnit_tryFrom_toStr, ?_, ⟨_, rfl⟩, rfl, rfl⟩
  · intro s v h
    unfold Difficulty.tryFrom at h
    split_ifs at h with h1 h2 h3
    · cases h; exact h1
    · cases h; exact h2
    · cases h; exact h3
  · intro s u h
    unfold MeasurementUnit.tryFrom at h
    split_ifs at h with h1 h2 h3 h4 h5 h6
    · cases h; exact h1
    · cases h; exact h2
    · cases h; exact h3
    · cases h; exact h4
    · cases h; exact h5
    · cases h; exact h6

/-- C7 witness: the parse/serialize round trip and the strictness
direction at concrete inputs. -/
theorem c7_enum_strictness_witness :
    Difficulty.tryFrom (Difficulty.toStr Difficulty.Medium) = Except.ok Difficulty.Medium
  ∧ ("Hard" : String) = Difficulty.toStr Difficulty.Hard
  ∧ MeasurementUnit.tryFrom (MeasurementUnit.toStr MeasurementUnit.Piece)
      = Except.ok MeasurementUnit.Piece
  ∧ ("Pack" : String) = MeasurementUnit.toStr MeasurementUnit.Pack :=
  ⟨c7_enum_strictness.1 Difficulty.Medium,
   c7_enum_strictness.2.1 "Hard" Difficulty.Hard rfl,
   c7_enum_strictness.2.2.1 MeasurementUnit.Piece,
   c7_enum_strictness.2.2.2.1 "Pack" MeasurementUnit.Pack rfl⟩

/-- C8. An Int32 version value n parses to the unsigned 32-bit value
with the same bit pattern, n mod 2^32; a negative n lands at or above
2^31 (silently reinterpreted as a large unsigned value); and the
version extraction succeeds exactly when the field holds an Int32. -/
theorem c8_version (d : Document) (n : Int)
    (h1 : -(2 ^ 31) ≤ n) (h2 : n < 2 ^ 31) :
    (Document.get d JSON_ATTR_VERSION = some (Bson.int32 n) →
        Recipe.extract_version d = Except.ok (n % 2 ^ 32).toNat)
  ∧ (n < 0 → 2 ^ 31 ≤ (n % 2 ^ 32).toNat)
  ∧ ((∃ u, Recipe.extract_version d = Except.ok u) ↔
        ∃ m, Document.get d JSON_ATTR_VERSION = some (Bson.int32 m)) := by
  refine ⟨?_, ?_, ?_⟩
  · intro h
    unfold Recipe.extract_version Document.getI32
    rw [h]
    simp only [i32AsU32]
    congr 1
    split <;> omega
  · omega
  · unfold Recipe.extract_version Document.getI32
    rcases hg : Document.get d JSON_ATTR_VERSION with _ | b
    · simp
    · cases b <;> simp

/-- C8 witness: version -1 parses to 2^32 - 1. -/
theorem c8_version_witness :
    Recipe.extract_version [(JSON_ATTR_VERSION, Bson.int32 (-1))] = Except.ok 4294967295
  ∧ 2 ^ 31 ≤ (((-1 : Int)) % 2 ^ 32).toNat := by
  have h := c8_version [(JSON_ATTR_VERSION, Bson.int32 (-1))] (-1) (by decide) (by decide)
  refine ⟨?_, h.2.1 (by decide)⟩
  have hv : ((-1 : Int) % 2 ^ 32).toNat = 4294967295 := by decide
  rw [h.1 rfl, hv]

/-- C9. The pagination predicates: fully-empty holds exactly when all
three fields are absent; fully-set holds exactly when all three are
present with positive page and items and sorting 1 or -1 (so it holds
at page 1, items 10, sorting 1); and when some but not all fields are
present both predicates are false. -/
theorem c9_pagination (p : Pagination) :
    (Pagination.is_fully_empty p = true ↔
        p.page = none ∧ p.items = none ∧ p.sorting = none)
  ∧ (Pagination.is_fully_set p = true ↔
        ∃ a b c, p.page = some a ∧ 0 < a ∧ p.items = some b ∧ 0 < b
          ∧ p.sorting = some c ∧ (c = 1 ∨ c = -1))
  ∧ Pagination.is_fully_set ⟨some 1, some 10, some 1⟩ = true
  ∧ ((p.page.isSome = true ∨ p.items.isSome = true ∨ p.sorting.isSome = true) →
     (p.page.isNone = true ∨ p.items.isNone = true ∨ p.sorting.isNone = true) →
     Pagination.is_fully_set p = false ∧ Pagination.is_fully_empty p = false) := by
  obtain ⟨pg, it, so⟩ := p
  refine ⟨?_, ?_, by decide, ?_⟩
  · cases pg <;> cases it <;> cases so <;>
      simp [Pagination.is_fully_empty]
  · cases pg <;> cases it <;> cases so <;>
      simp [Pagination.is_fully_set, and_assoc]
  · cases pg <;> cases it <;> cases so <;>
      simp [Pagination.is_fully_set, Pagination.is_fully_empty]

/-- C9 witness: a partially-filled descriptor has both predicates
false, and the all-absent and fully-valid descriptors behave as
claimed. -/
theorem c9_pagination_witness :
    (Pagination.is_fully_set ⟨some 1, none, none⟩ = false
      ∧ Pagination.is_fully_empty ⟨some 1, none, none⟩ = false)
  ∧ Pagination.is_fully_empty ⟨none, none, none⟩ = true
  ∧ Pagination.is_fully_set ⟨some 1, some 10, some 1⟩ = true :=
  ⟨(c9_pagination ⟨some 1, none, none⟩).2.2.2 (Or.inl rfl) (Or.inr (Or.inl rfl)),
   (c9_pagination ⟨none, none, none⟩).1.mpr ⟨rfl, rfl, rfl⟩,
   (c9_pagination ⟨some 1, some 10, some 1⟩).2.2.1⟩

theorem collectStrings_some_iff (bs : List Bson) :
    (∃ l, collectStrings bs = some l) ↔ ∀ b ∈ bs, ∃ s, b = Bson.string s := by
  induction bs with
  | nil => exact ⟨fun _ => by simp, fun _ => ⟨[], rfl⟩⟩
  | cons b rest ih =>
    cases b <;> cases hr : collectStrings rest <;>
      simp_all [collectStrings, Bson.asStr]

theorem collectIngredients_ok_iff (bs : List Bson) :
    (∃ l, collectIngredients bs = Except.ok l) ↔
      ∀ b ∈ bs, ∃ ing, Ingredient.tryFrom b = Except.ok ing := by
  induction bs with
  | nil => exact ⟨fun _ => by simp, fun _ => ⟨[], rfl⟩⟩
  | cons b rest ih =>
    cases hb : Ingredient.tryFrom b <;> cases hr : collectIngredients rest <;>
      simp_all [collectIngredients]

theorem extract_tags_ok_iff (d : Document) (arr : List Bson)
    (h : Document.get d JSON_ATTR_TAGS = some (Bson.array arr)) :
    (∃ l, Recipe.extract_tags d = Except.ok l) ↔ ∀ b ∈ arr, ∃ s, b = Bson.string s := by
  have hx : Recipe.extract_tags d
      = (match collectStrings arr with
        | some l => Except.ok l
        | none => Except.error ⟨"Error getting tag from document"⟩) := by
    unfold Recipe.extract_tags Document.getArray
    rw [h]
  rw [hx, ← collectStrings_some_iff]
  cases hc : collectStrings arr <;> simp [hc]

theorem extract_instructions_ok_iff (d : Document) (arr : List Bson)
    (h : Document.get d JSON_ATTR_INSTRUCTIONS = some (Bson.array arr)) :
    (∃ l, Recipe.extract_instructions d = Except.ok l) ↔
      ∀ b ∈ arr, ∃ s, b = Bson.string s := by
  have hx : Recipe.extract_instructions d
      = (match collectStrings arr with
        | some l => Except.ok l
        | none => Except.error ⟨"Error getting instructions from document"⟩) := by
    unfold Recipe.extract_instructions Document.getArray
    rw [h]
  rw [hx, ← collectStrings_some_iff]
  cases hc : collectStrings arr <;> simp [hc]

theorem extract_ingredients_ok_iff (d : Document) (arr : List Bson)
    (h : Document.get d JSON_ATTR_INGREDIENTS = some (Bson.array arr)) :
    (∃ l, Recipe.extract_ingredients d = Except.ok l) ↔
      ∀ b ∈ arr, ∃ ing, Ingredient.tryFrom b = Except.ok ing := by
  have hx : Recipe.extract_ingredients d = collectIngredients arr := by
    unfold Recipe.extract_ingredients Document.getArray
    rw [h]
  rw [hx, ← collectIngredients_ok_iff]

/-- When the whole recipe parse succeeds, every collection extractor
succeeded with the corresponding field of the result. -/
theorem tryFrom_ok_collections (d : Document) (r : Recipe)
    (h : Recipe.tryFrom d = Except.ok r) :
    Recipe.extract_ingredients d = Except.ok r.ingredients
  ∧ Recipe.extract_tags d = Except.ok r.tags
  ∧ Recipe.extract_instructions d = Except.ok r.instructions := by
  unfold Recipe.tryFrom at h
  repeat' split at h
  all_goals cases h
  exact ⟨by assumption, by assumption, by assumption⟩

/-- C4. With an array bound to the tags, instructions or ingredients
key, the field extraction succeeds exactly when every element is
well-formed (a string for tags and instructions; a document with the
four correctly typed sub-fields, i.e. an element the ingredient mapper
accepts, for ingredients); and a successful whole-recipe parse entails
each collection extraction succeeded, so one malformed element fails
the entire parse rather than producing a partial list. -/
theorem c4_element_validation (d : Document) (arr : List Bson) :
    (Document.get d JSON_ATTR_TAGS = some (Bson.array arr) →
        ((∃ l, Recipe.extract_tags d = Except.ok l) ↔ ∀ b ∈ arr, ∃ s, b = Bson.string s))
  ∧ (Document.get d JSON_ATTR_INSTRUCTIONS = some (Bson.array arr) →
        ((∃ l, Recipe.extract_instructions d = Except.ok l) ↔
          ∀ b ∈ arr, ∃ s, b = Bson.string s))
  ∧ (Document.get d JSON_ATTR_INGREDIENTS = some (Bson.array arr) →
        ((∃ l, Recipe.extract_ingredients d = Except.ok l) ↔
          ∀ b ∈ arr, ∃ ing, Ingredient.tryFrom b = Except.ok ing))
  ∧ (∀ r, Recipe.tryFrom d = Except.ok r →
        Recipe.extract_ingredients d = Except.ok r.ingredients
      ∧ Recipe.extract_tags d = Except.ok r.tags
      ∧ Recipe.extract_instructions d = Except.ok r.instructions) :=
  ⟨extract_tags_ok_iff d arr, extract_instructions_ok_iff d arr,
   extract_ingredients_ok_iff d arr, fun _ => tryFrom_ok_collections d _⟩

/-- C4 witness: the empty array parses to the empty list for all three
fields, and one malformed element (an ingredient missing the amount
key) fails the ingredients extraction. -/
theorem c4_element_validation_witness :
    ((∃ l, Recipe.extract_tags [(JSON_ATTR_TAGS, Bson.array [])] = Except.ok l) ↔ True)
  ∧ ((∃ l, Recipe.extract_ingredients
        [(JSON_ATTR_INGREDIENTS,
          Bson.array [Ingredient.toBson ⟨"0", 100, "Cheese", MeasurementUnit.Kilogramm⟩,
                      Bson.document [("id", Bson.string "1")]])] = Except.ok l) ↔ False) := by
  constructor
  · rw [iff_true]
    exact ((c4_element_validation [(JSON_ATTR_TAGS, Bson.array [])] []).1 rfl).mpr
      (by intro b hb; cases hb)
  · rw [iff_false]
    intro hex
    have hall := ((c4_element_validation
        [(JSON_ATTR_INGREDIENTS,
          Bson.array [Ingredient.toBson ⟨"0", 100, "Cheese", MeasurementUnit.Kilogramm⟩,
                      Bson.document [("id", Bson.string "1")]])]
        [Ingredient.toBson ⟨"0", 100, "Cheese", MeasurementUnit.Kilogramm⟩,
         Bson.document [("id", Bson.string "1")]]).2.2.1 rfl).mp hex
    rcases hall (Bson.document [("id", Bson.string "1")]) (by simp) with ⟨ing, hing⟩
    cases hing

/-- The parse reads a document only through the recognized keys. -/
theorem tryFrom_congr (d1 d2 : Document)
    (h : ∀ key ∈ recognizedKeys, Document.get d1 key = Document.get d2 key) :
    Recipe.tryFrom d1 = Recipe.tryFrom d2 := by
  have g1 : Recipe.extract_id d1 = Recipe.extract_id d2 := by
    unfold Recipe.extract_id Document.getObjectId
    rw [h JSON_ATTR_ID (by simp [recognizedKeys])]
  have g2 : Recipe.extract_cooking_time d1 = Recipe.extract_cooking_time d2 := by
    unfold Recipe.extract_cooking_time Document.getI32
    rw [h JSON_ATTR_COOKING_TIME (by simp [recognizedKeys])]
  have g3 : Recipe.extract_created d1 = Recipe.extract_created d2 := by
    unfold Recipe.extract_created Document.getDatetime
    rw [h JSON_ATTR_CREATED (by simp [recognizedKeys])]
  have g4 : Recipe.extract_last_modified d1 = Recipe.extract_last_modified d2 := by
    unfold Recipe.extract_last_modified Document.getDatetime
    rw [h JSON_ATTR_LAST_MODIFIED (by simp [recognizedKeys])]
  have g5 : Recipe.extract_ingredients d1 = Recipe.extract_ingredients d2 := by
    unfold Recipe.extract_ingredients Document.getArray
    rw [h JSON_ATTR_INGREDIENTS (by simp [recognizedKeys])]
  have g6 : Recipe.extract_version d1 = Recipe.extract_version d2 := by
    unfold Recipe.extract_version Document.getI32
    rw [h JSON_ATTR_VERSION (by simp [recognizedKeys])]
  have g7 : Recipe.extract_difficulty d1 = Recipe.extract_difficulty d2 := by
    unfold Recipe.extract_difficulty Document.getStr
    rw [h JSON_ATTR_DIFFICULTY (by simp [recognizedKeys])]
  have g8 : Recipe.extract_description d1 = Recipe.extract_description d2 := by
    unfold Recipe.extract_description Document.getStr
    rw [h JSON_ATTR_DESCRIPTION (by simp [recognizedKeys])]
  have g9 : Recipe.extract_title d1 = Recipe.extract_title d2 := by
    unfold Recipe.extract_title Document.getStr
    rw [h JSON_ATTR_TITLE (by simp [recognizedKeys])]
  have g10 : Recipe.extract_tags d1 = Recipe.extract_tags d2 := by
    unfold Recipe.extract_tags Document.getArray
    rw [h JSON_ATTR_TAGS (by simp [recognizedKeys])]
  have g11 : Recipe.extract_image d1 = Recipe.extract_image d2 := by
    unfold Recipe.extract_image
    rw [h JSON_ATTR_IMAGE (by simp [recognizedKeys])]
  have g12 : Recipe.extract_instructions d1 = Recipe.extract_instructions d2 := by
    unfold Recipe.extract_instructions Document.getArray
    rw [h JSON_ATTR_INSTRUCTIONS (by simp [recognizedKeys])]
  have g13 : Recipe.extract_default_servings d1 = Recipe.extract_default_servings d2 := by
    unfold Recipe.extract_default_servings Document.getI32
    rw [h JSON_ATTR_DEFAULT_SERVINGS (by simp [recognizedKeys])]
  unfold Recipe.tryFrom
  rw [g1, g2, g3, g4, g5, g6, g7, g8, g9, g10, g11, g12, g13]

/-- C10. Unrecognized keys are ignored: binding any key outside the
recognized key set, with any value, in a document that parses, leaves
the parse result unchanged. -/
theorem c10_unknown_keys_ignored (d : Document) (r : Recipe) (k : String) (v : Bson)
    (hk : k ∉ recognizedKeys) (h : Recipe.tryFrom d = Except.ok r) :
    Recipe.tryFrom (Document.insert d k v) = Except.ok r := by
  have hc : Recipe.tryFrom (Document.insert d k v) = Recipe.tryFrom d :=
    tryFrom_congr _ _ (fun key hkey =>
      Document.get_insert_ne d k key v (fun he => hk (he ▸ hkey)))
  rw [hc, h]

/-- C10 witness: adding an unrecognized key to a parsing document at a
concrete input. -/
theorem c10_unknown_keys_ignored_witness :
    Recipe.tryFrom
      (Document.insert
        (Document.insert (Recipe.toDocument sampleRecipe) JSON_ATTR_ID (Bson.objectId sampleId))
        "ignore" (Bson.string "value"))
      = Except.ok sampleRecipe :=
  c10_unknown_keys_ignored _ sampleRecipe "ignore" (Bson.string "value") (by decide) rfl

/-- A fully valid document that stores the last-modified timestamp
under the camelCase wire key instead of the snake_case key the mapper
reads. -/
def lastModifiedWireDoc : Document :=
  [ (JSON_ATTR_ID, Bson.objectId sampleId),
    (JSON_ATTR_COOKING_TIME, Bson.int32 10),
    (JSON_ATTR_CREATED, Bson.utcDatetime ⟨100⟩),
    ("lastModified", Bson.utcDatetime ⟨200⟩),
    (JSON_ATTR_INGREDIENTS, Bson.array []),
    (JSON_ATTR_VERSION, Bson.int32 1),
    (JSON_ATTR_DIFFICULTY, Bson.string "Easy"),
    (JSON_ATTR_DESCRIPTION, Bson.string "Recipe desciption"),
    (JSON_ATTR_TITLE, Bson.string "Recipe title"),
    (JSON_ATTR_TAGS, Bson.array [Bson.string "vegan"]),
    (JSON_ATTR_IMAGE, Bson.null),
    (JSON_ATTR_INSTRUCTIONS, Bson.array [Bson.string "do it"]),
    (JSON_ATTR_DEFAULT_SERVINGS, Bson.int32 2) ]

/-- C5. The mapper reads the last-modified timestamp under the key
`last_modified`, not `lastModified`: a document valid in every field
that carries the timestamp under `lastModified` fails to parse, while
the identical document additionally carrying it under `last_modified`
parses successfully. -/
theorem c5_counterexample :
    Recipe.tryFrom lastModifiedWireDoc
        = Except.error ⟨"Error getting last modified from document"⟩
  ∧ Recipe.tryFrom
        (Document.insert lastModifiedWireDoc JSON_ATTR_LAST_MODIFIED (Bson.utcDatetime ⟨200⟩))
      = Except.ok
          { _id := sampleId, cooking_time_in_minutes := 10, created := ⟨100⟩,
            last_modified := ⟨200⟩, ingredients := [], version := 1,
            difficulty := Difficulty.Easy, description := "Recipe desciption",
            title := "Recipe title", tags := ["vegan"], image_oid := none,
            instructions := ["do it"], default_servings := 2 } :=
  ⟨rfl, rfl⟩

/-- C5 (amended). The recognized top-level keys are exactly `_id`,
`cookingTimeInMinutes`, `created`, `last_modified`, `ingredients`,
`version`, `difficulty`, `description`, `title`, `tags`, `image`,
`instructions`, `defaultServings`; the parse reads a document only
through those keys; and a document valid in every field (as produced by
the serializer plus the identifier key, hence with last-modified under
`last_modified`) parses successfully. -/
theorem c5_recognized_keys :
    recognizedKeys =
      [ "_id", "cookingTimeInMinutes", "created", "last_modified", "ingredients", "version",
        "difficulty", "description", "title", "tags", "image", "instructions",
        "defaultServings" ]
  ∧ (∀ d1 d2 : Document,
        (∀ key ∈ recognizedKeys, Document.get d1 key = Document.get d2 key) →
        Recipe.tryFrom d1 = Recipe.tryFrom d2)
  ∧ (∀ r : Recipe, r.cooking_time_in_minutes < 2 ^ 31 → 1 ≤ r.default_servings →
        r.default_servings < 2 ^ 31 → r.version < 2 ^ 32 →
        Recipe.tryFrom (Document.insert (Recipe.toDocument r) JSON_ATTR_ID
            (Bson.objectId r._id))
          = Except.ok r) :=
  ⟨rfl, tryFrom_congr, fun r h1 h2 h3 h4 => tryFrom_insert_id_toDocument r h1 h2 h3 h4⟩

/-- C5 witness: two concrete documents agreeing on every recognized key
parse identically, and a concrete serialized recipe parses back. -/
theorem c5_recognized_keys_witness :
    Recipe.tryFrom lastModifiedWireDoc
        = Recipe.tryFrom (Document.insert lastModifiedWireDoc "unknownKey" (Bson.int64 5))
  ∧ Recipe.tryFrom
        (Document.insert
          (Recipe.toDocument
            { sampleRecipe with title := "Another title", default_servings := 4 })
          JSON_ATTR_ID (Bson.objectId sampleId))
      = Except.ok { sampleRecipe with title := "Another title", default_servings := 4 } :=
  ⟨c5_recognized_keys.2.1 _ _ (by
      intro key hkey
      fin_cases hkey <;> rfl),
   c5_recognized_keys.2.2 _ (by decide) (by decide) (by decide) (by decide)⟩

/-! ## Error-message lemmas: every extractor except the ingredients
element conversion produces a nonempty message -/

theorem errList_mem {α : Type} (x : Except RecipeFormatError α) (e : RecipeFormatError)
    (h : e ∈ errList x) : x = Except.error e := by
  cases x with
  | error e1 =>
    simp [errList] at h
    rw [h]
  | ok v => simp [errList] at h

theorem extract_id_error_ne (doc : Document) (e : RecipeFormatError)
    (h : Recipe.extract_id doc = Except.error e) : e.error ≠ "" := by
  unfold Recipe.extract_id at h
  repeat' split at h
  all_goals cases h <;> decide

theorem extract_cooking_time_error_ne (doc : Document) (e : RecipeFormatError)
    (h : Recipe.extract_cooking_time doc = Except.error e) : e.error ≠ "" := by
  unfold Recipe.extract_cooking_time at h
  repeat' split at h
  all_goals cases h <;> decide

theorem extract_created_error_ne (doc : Document) (e : RecipeFormatError)
    (h : Recipe.extract_created doc = Except.error e) : e.error ≠ "" := by
  unfold Recipe.extract_created at h
  repeat' split at h
  all_goals cases h <;> decide

theorem extract_last_modified_error_ne (doc : Document) (e : RecipeFormatError)
    (h : Recipe.extract_last_modified doc = Except.error e) : e.error ≠ "" := by
  unfold Recipe.extract_last_modified at h
  repeat' split at h
  all_goals cases h <;> decide

theorem extract_version_error_ne (doc : Document) (e : RecipeFormatError)
    (h : Recipe.extract_version doc = Except.error e) : e.error ≠ "" := by
  unfold Recipe.extract_version at h
  repeat' split at h
  all_goals cases h <;> decide

theorem extract_description_error_ne (doc : Document) (e : RecipeFormatError)
    (h : Recipe.extract_description doc = Except.error e) : e.error ≠ "" := by
  unfold Recipe.extract_description at h
  repeat' split at h
  all_goals cases h <;> decide

theorem extract_title_error_ne (doc : Document) (e : RecipeFormatError)
    (h : Recipe.extract_title doc = Except.error e) : e.error ≠ "" := by
  unfold Recipe.extract_title at h
  repeat' split at h
  all_goals cases h <;> decide

theorem extract_tags_error_ne (doc : Document) (e : RecipeFormatError)
    (h : Recipe.extract_tags doc = Except.error e) : e.error ≠ "" := by
  unfold Recipe.extract_tags at h
  repeat' split at h
  all_goals cases h <;> decide

theorem extract_image_error_ne (doc : Document) (e : RecipeFormatError)
    (h : Recipe.extract_image doc = Except.error e) : e.error ≠ "" := by
  unfold Recipe.extract_image at h
  repeat' split at h
  all_goals cases h <;> decide

theorem extract_instructions_error_ne (doc : Document) (e : RecipeFormatError)
    (h : Recipe.extract_instructions doc = Except.error e) : e.error ≠ "" := by
  unfold Recipe.extract_instructions at h
  repeat' split at h
  all_goals cases h <;> decide

theorem extract_default_servings_error_ne (doc : Document) (e : RecipeFormatError)
    (h : Recipe.extract_default_servings doc = Except.error e) : e.error ≠ "" := by
  unfold Recipe.extract_default_servings at h
  repeat' split at h
  all_goals cases h <;> decide

theorem extract_difficulty_error_ne (doc : Document) (e : RecipeFormatError)
    (h : Recipe.extract_difficulty doc = Except.error e) : e.error ≠ "" := by
  unfold Recipe.extract_difficulty at h
  split at h
  · unfold Difficulty.tryFrom at h
    split_ifs at h
    cases h
    intro hemp
    have h2 := congrArg String.data hemp
    simp [String.data_append] at h2
  · cases h; decide

/-- An empty error message in the field error list can only come from
the ingredients extraction (a malformed element is mapped to the empty
message in the source). -/
theorem fieldErrors_empty_is_ingredients (doc : Document) (e : RecipeFormatError)
    (hmem : e ∈ Recipe.fieldErrors doc) (hemp : e.error = "") :
    Recipe.extract_ingredients doc = Except.error e := by
  unfold Recipe.fieldErrors at hmem
  simp only [List.mem_append, or_assoc] at hmem
  rcases hmem with h | h | h | h | h | h | h | h | h | h | h | h | h
  · exact absurd hemp (extract_id_error_ne doc e (errList_mem _ _ h))
  · exact absurd hemp (extract_cooking_time_error_ne doc e (errList_mem _ _ h))
  · exact absurd hemp (extract_created_error_ne doc e (errList_mem _ _ h))
  · exact absurd hemp (extract_last_modified_error_ne doc e (errList_mem _ _ h))
  · exact errList_mem _ _ h
  · exact absurd hemp (extract_version_error_ne doc e (errList_mem _ _ h))
  · exact absurd hemp (extract_difficulty_error_ne doc e (errList_mem _ _ h))
  · exact absurd hemp (extract_description_error_ne doc e (errList_mem _ _ h))
  · exact absurd hemp (extract_title_error_ne doc e (errList_mem _ _ h))
  · exact absurd hemp (extract_tags_error_ne doc e (errList_mem _ _ h))
  · exact absurd hemp (extract_image_error_ne doc e (errList_mem _ _ h))
  · exact absurd hemp (extract_instructions_error_ne doc e (errList_mem _ _ h))
  · exact absurd hemp (extract_default_servings_error_ne doc e (errList_mem _ _ h))

/-- The parse fails with e exactly when e is the first per-field error
in extraction order. -/
theorem tryFrom_error_iff (doc : Document) (e : RecipeFormatError) :
    Recipe.tryFrom doc = Except.error e ↔ (Recipe.fieldErrors doc).head? = some e := by
  unfold Recipe.tryFrom Recipe.fieldErrors
  cases h1 : Recipe.extract_id doc with
  | error e1 => simp [errList]
  | ok v1 =>
  cases h2 : Recipe.extract_cooking_time doc with
  | error e2 => simp [errList]
  | ok v2 =>
  cases h3 : Recipe.extract_created doc with
  | error e3 => simp [errList]
  | ok v3 =>
  cases h4 : Recipe.extract_last_modified doc with
  | error e4 => simp [errList]
  | ok v4 =>
  cases h5 : Recipe.extract_ingredients doc with
  | error e5 => simp [errList]
  | ok v5 =>
  cases h6 : Recipe.extract_version doc with
  | error e6 => simp [errList]
  | ok v6 =>
  cases h7 : Recipe.extract_difficulty doc with
  | error e7 => simp [errList]
  | ok v7 =>
  cases h8 : Recipe.extract_description doc with
  | error e8 => simp [errList]
  | ok v8 =>
  cases h9 : Recipe.extract_title doc with
  | error e9 => simp [errList]
  | ok v9 =>
  cases h10 : Recipe.extract_tags doc with
  | error e10 => simp [errList]
  | ok v10 =>
  cases h11 : Recipe.extract_image doc with
  | error e11 => simp [errList]
  | ok v11 =>
  cases h12 : Recipe.extract_instructions doc with
  | error e12 => simp [errList]
  | ok v12 =>
  cases h13 : Recipe.extract_default_servings doc with
  | error e13 => simp [errList]
  | ok v13 => simp [errList]

/-- C6 (amended). The parse returns the error of the first failing
field in the fixed extraction order (identifier, cooking time, created,
last modified, ingredients, version, difficulty, description, title,
tags, image, instructions, default servings) and accumulates nothing;
every field error carries a nonempty message naming the field, except
that a malformed element inside the ingredients array yields an error
with an empty message — formally, an empty-message field error can only
be the ingredients extraction error. -/
theorem c6_fail_fast (doc : Document) (e : RecipeFormatError) :
    (Recipe.tryFrom doc = Except.error e ↔ (Recipe.fieldErrors doc).head? = some e)
  ∧ (e ∈ Recipe.fieldErrors doc → e.error = "" →
        Recipe.extract_ingredients doc = Except.error e) :=
  ⟨tryFrom_error_iff doc e, fieldErrors_empty_is_ingredients doc e⟩

/-- A document whose first four fields are valid and whose ingredients
array contains one malformed element (missing the amount key). -/
def badIngredientDoc : Document :=
  [ (JSON_ATTR_ID, Bson.objectId sampleId),
    (JSON_ATTR_COOKING_TIME, Bson.int32 10),
    (JSON_ATTR_CREATED, Bson.utcDatetime ⟨100⟩),
    (JSON_ATTR_LAST_MODIFIED, Bson.utcDatetime ⟨200⟩),
    (JSON_ATTR_INGREDIENTS, Bson.array [Bson.document [("id", Bson.string "0")]]) ]

/-- C6. Counterexample to the claim as stated: a malformed ingredient
element makes the whole parse fail with an error whose message is the
empty string, which identifies neither the failing field nor what was
expected. -/
theorem c6_counterexample :
    Recipe.tryFrom badIngredientDoc = Except.error ⟨""⟩
  ∧ (RecipeFormatError.mk "").error = "" :=
  ⟨rfl, rfl⟩

/-- C6 witness: the first-error characterization at two concrete
documents, and the empty-message error at the malformed-ingredient
document traced back to the ingredients extractor. -/
theorem c6_fail_fast_witness :
    Recipe.tryFrom [] = Except.error ⟨"Error getting  Object Id document"⟩
  ∧ Recipe.extract_ingredients badIngredientDoc = Except.error ⟨""⟩ :=
  ⟨(c6_fail_fast [] ⟨"Error getting  Object Id document"⟩).1.mpr rfl,
   (c6_fail_fast badIngredientDoc ⟨""⟩).2 (by decide) rfl⟩

end Zellinotes
